import Mathlib

/-!
Shallow embedding of the per-building energy-balance core of the CityLearn
fork (`citylearn/building.py`, with the data containers of
`citylearn/data.py`).

Modelling conventions:

* Machine floats are modelled by `ℚ`.  The arithmetic the verified paths
  perform (addition, multiplication, `max`/`min`, absolute value) is exact,
  so rationals are a faithful carrier for every claim below except the
  action-bound estimator, which genuinely exercises IEEE special values; for
  that path a dedicated `PyFloat` type with `inf`/`nan` is used.
* Time-series arrays of the data containers are modelled as total functions
  `ℕ → ℚ` indexed by time step.  The three thermal demand arrays are
  `ℕ → Option ℚ`, where `none` models a missing (`None`/`NaN`) float entry:
  `building.py` explicitly tests those entries for `None`/`NaN`
  (`update_cooling_storage` and friends) and substitutes `0`.  Where the
  code reads such an array without the test (`update_variables`), the
  embedding reads `(· ).getD 0` and the theorems concerned hypothesise that
  the current entry is present (a genuine `NaN` would poison the float
  computation and no rational value stands for it).
* The conversion devices (heat pump / electric heater), storages, battery
  and PV are external collaborators: their thermodynamic formulas live in
  `citylearn/energy_model.py`, outside the verified core.  They are embedded
  as capability records of opaque function fields exactly mirroring the
  contract the core calls (`get_max_output_power`, `get_input_power`,
  `get_cop`, `capacity`, `charge`, ...).  The `isinstance(x, HeatPump)`
  dispatch of the source becomes the Boolean tag `is_heat_pump`.
  `charge` keeps a log of the requested energies (the storage model may
  clip internally; the core only ever passes a value to it).
* The base `Environment` object (`citylearn/base.py`) is not part of the
  sources.  Modelled from the spec: it carries the monotonically increasing
  current time index; `next_time_step` increments it by one and `reset`
  returns it to zero.
-/

/-- Conversion-device capability record (heat pump or electric heater).
The fields mirror the calls `building.py` makes; their internal formulas
are external.  `is_heat_pump` models the `isinstance(·, HeatPump)` test.
`get_max_output_power` is the heat-pump form `(outdoor temperature,
heating flag)`; `get_max_output_power_noargs` is the electric-heater
zero-argument form; `get_max_output_power_elec` is the heat-pump form that
also receives `max_electric_power`.  `get_input_power` is the heat-pump
form `(demand, outdoor temperature, heating flag)`;
`get_input_power_single` is the single-argument form used for electric
heaters (and for any device called with only a demand argument). -/
structure Device where
  is_heat_pump : Bool
  nominal_power : ℚ
  efficiency : ℚ
  get_max_output_power : ℚ → Bool → ℚ
  get_max_output_power_noargs : ℚ
  get_max_output_power_elec : ℚ → Bool → ℚ → ℚ
  get_input_power : ℚ → ℚ → Bool → ℚ
  get_input_power_single : ℚ → ℚ
  get_cop : ℚ → Bool → ℚ
  electricity_consumption_log : List ℚ

/-- `device.update_electricity_consumption(input_power)`: the device records
the electricity drawn this step (external bookkeeping; modelled as a log). -/
def Device.update_electricity_consumption (d : Device) (input_power : ℚ) : Device :=
  { d with electricity_consumption_log := d.electricity_consumption_log ++ [input_power] }

/-- Thermal storage capability record (`StorageTank`).  `energy_balance` and
`soc` are the externally maintained per-step series the core reads;
`charge_log` records every energy value the core passes to `charge`
(the storage model enforces its own SOC/capacity bounds internally). -/
structure StorageDevice where
  capacity : ℚ
  energy_balance : ℕ → ℚ
  soc : ℕ → ℚ
  charge_log : List ℚ

/-- `storage.charge(energy)`: record the requested energy. -/
def StorageDevice.charge (s : StorageDevice) (energy : ℚ) : StorageDevice :=
  { s with charge_log := s.charge_log ++ [energy] }

/-- Battery capability record.  `capacity_history` is read at index 0 by the
observation assembler; `electricity_consumption` is the per-step series read
by `update_variables`. -/
structure Battery where
  capacity : ℚ
  capacity_history : List ℚ
  energy_balance : ℕ → ℚ
  soc : ℕ → ℚ
  electricity_consumption : ℕ → ℚ
  charge_log : List ℚ

/-- `battery.charge(energy)`: record the requested energy. -/
def Battery.charge (s : Battery) (energy : ℚ) : Battery :=
  { s with charge_log := s.charge_log ++ [energy] }

/-- `citylearn/data.py` `EnergySimulation` container: one value per time
step.  The thermal demand arrays are `Option`-valued (`none` = missing/NaN
entry, see the file header).  The final five fields are the additional
attributes `building.py` reads from the container (`occupant_count`, the
two set points and the two device-demand-schedule flags); they are set on
the container by loader code outside these sources. -/
structure EnergySimulation where
  month : ℕ → ℚ
  hour : ℕ → ℚ
  day_type : ℕ → ℚ
  daylight_savings_status : ℕ → ℚ
  indoor_dry_bulb_temperature : ℕ → ℚ
  average_unmet_cooling_setpoint_difference : ℕ → ℚ
  indoor_relative_humidity : ℕ → ℚ
  non_shiftable_load : ℕ → ℚ
  dhw_demand : ℕ → Option ℚ
  cooling_demand : ℕ → Option ℚ
  heating_demand : ℕ → Option ℚ
  solar_generation : ℕ → ℚ
  occupant_count : ℕ → ℚ
  cooling_dry_bulb_temperature_set_point : ℕ → ℚ
  heating_dry_bulb_temperature_set_point : ℕ → ℚ
  cooling_device_demand_schedule : ℚ
  heating_device_demand_schedule : ℚ

/-- `citylearn/data.py` `Weather` container. -/
structure Weather where
  outdoor_dry_bulb_temperature : ℕ → ℚ
  outdoor_relative_humidity : ℕ → ℚ
  diffuse_solar_irradiance : ℕ → ℚ
  direct_solar_irradiance : ℕ → ℚ
  outdoor_dry_bulb_temperature_predicted_6h : ℕ → ℚ
  outdoor_dry_bulb_temperature_predicted_12h : ℕ → ℚ
  outdoor_dry_bulb_temperature_predicted_24h : ℕ → ℚ
  outdoor_relative_humidity_predicted_6h : ℕ → ℚ
  outdoor_relative_humidity_predicted_12h : ℕ → ℚ
  outdoor_relative_humidity_predicted_24h : ℕ → ℚ
  diffuse_solar_irradiance_predicted_6h : ℕ → ℚ
  diffuse_solar_irradiance_predicted_12h : ℕ → ℚ
  diffuse_solar_irradiance_predicted_24h : ℕ → ℚ
  direct_solar_irradiance_predicted_6h : ℕ → ℚ
  direct_solar_irradiance_predicted_12h : ℕ → ℚ
  direct_solar_irradiance_predicted_24h : ℕ → ℚ

/-- `Pricing` container (four series, cf. the `pricing` setter). -/
structure Pricing where
  electricity_pricing : ℕ → ℚ
  electricity_pricing_predicted_6h : ℕ → ℚ
  electricity_pricing_predicted_12h : ℕ → ℚ
  electricity_pricing_predicted_24h : ℕ → ℚ

/-- `citylearn/data.py` `CarbonIntensity` container. -/
structure CarbonIntensity where
  carbon_intensity : ℕ → ℚ

/-- The `Building` state: the current time index (spec-modelled base
`Environment`), the data containers, the device/storage collaborators, the
name-mangled private ledgers (`__cooling_electricity_consumption`, ...,
`__net_electricity_consumption_emission`), the cached
`__solar_generation` array set at reset, and the observation metadata.
`pv_generation` models `pv.get_generation` applied elementwise. -/
structure Building where
  time_step : ℕ
  energy_simulation : EnergySimulation
  weather : Weather
  pricing : Pricing
  carbon_intensity : CarbonIntensity
  cooling_device : Device
  heating_device : Device
  dhw_device : Device
  cooling_storage : StorageDevice
  heating_storage : StorageDevice
  dhw_storage : StorageDevice
  electrical_storage : Battery
  pv_generation : ℚ → ℚ
  solar_generation : ℕ → ℚ
  cooling_electricity_consumption : List ℚ
  heating_electricity_consumption : List ℚ
  dhw_electricity_consumption : List ℚ
  net_electricity_consumption : List ℚ
  net_electricity_consumption_price : List ℚ
  net_electricity_consumption_emission : List ℚ
  observation_metadata : List (String × Bool)

/-- `Building.update_variables` (building.py lines 947-986): recompute the
three thermal electricity consumptions from current exogenous demand plus
the current-step storage energy balance, append them, append net
electricity consumption, price and emission.  Note the source's dispatch at
line 959: a non-heat-pump heating device routes the heating demand through
`self.dhw_device.get_input_power`. -/
def Building.update_variables (b : Building) : Building :=
  let t := b.time_step
  let cooling_demand := (b.energy_simulation.cooling_demand t).getD 0 + b.cooling_storage.energy_balance t
  let cooling_consumption := b.cooling_device.get_input_power cooling_demand (b.weather.outdoor_dry_bulb_temperature t) false
  let heating_demand := (b.energy_simulation.heating_demand t).getD 0 + b.heating_storage.energy_balance t
  let heating_consumption :=
    if b.heating_device.is_heat_pump then
      b.heating_device.get_input_power heating_demand (b.weather.outdoor_dry_bulb_temperature t) true
    else
      b.dhw_device.get_input_power_single heating_demand
  let dhw_demand := (b.energy_simulation.dhw_demand t).getD 0 + b.dhw_storage.energy_balance t
  let dhw_consumption :=
    if b.dhw_device.is_heat_pump then
      b.dhw_device.get_input_power dhw_demand (b.weather.outdoor_dry_bulb_temperature t) true
    else
      b.dhw_device.get_input_power_single dhw_demand
  let net := cooling_consumption + heating_consumption + dhw_consumption
      + b.electrical_storage.electricity_consumption t
      + b.energy_simulation.non_shiftable_load t
      + b.solar_generation t
  { b with
    cooling_electricity_consumption := b.cooling_electricity_consumption ++ [cooling_consumption]
    heating_electricity_consumption := b.heating_electricity_consumption ++ [heating_consumption]
    dhw_electricity_consumption := b.dhw_electricity_consumption ++ [dhw_consumption]
    net_electricity_consumption := b.net_electricity_consumption ++ [net]
    net_electricity_consumption_price := b.net_electricity_consumption_price ++ [net * b.pricing.electricity_pricing t]
    net_electricity_consumption_emission := b.net_electricity_consumption_emission ++ [max 0 (net * b.carbon_intensity.carbon_intensity t)] }

/-- `Building.next_time_step` (lines 909-921): advance the device and
storage collaborators (no effect on the modelled fields, their per-step
series being total functions), advance the base time index (spec-modelled:
incremented by one), then `update_variables`. -/
def Building.next_time_step (b : Building) : Building :=
  Building.update_variables { b with time_step := b.time_step + 1 }

/-- `Building.reset` (lines 923-945): reset the base index to zero
(spec-modelled), reset the collaborators (their request logs cleared),
clear the six ledgers, rebuild `__solar_generation` as
`pv.get_generation(solar_generation) * -1`, then `update_variables`. -/
def Building.reset (b : Building) : Building :=
  Building.update_variables
    { b with
      time_step := 0
      cooling_storage := { b.cooling_storage with charge_log := [] }
      heating_storage := { b.heating_storage with charge_log := [] }
      dhw_storage := { b.dhw_storage with charge_log := [] }
      electrical_storage := { b.electrical_storage with charge_log := [] }
      cooling_device := { b.cooling_device with electricity_consumption_log := [] }
      heating_device := { b.heating_device with electricity_consumption_log := [] }
      dhw_device := { b.dhw_device with electricity_consumption_log := [] }
      cooling_electricity_consumption := []
      heating_electricity_consumption := []
      dhw_electricity_consumption := []
      solar_generation := fun s => b.pv_generation (b.energy_simulation.solar_generation s) * (-1)
      net_electricity_consumption := []
      net_electricity_consumption_price := []
      net_electricity_consumption_emission := [] }

/-- `Building.update_cooling_storage` (lines 622-638).  `energy` starts as
`action * capacity`; the missing/NaN space demand is substituted by `0`;
`max_output` is the cooling device's maximum output power at the current
outdoor temperature with `heating=False`; the request is clamped to
`max(-space_demand, min(max_output - space_demand, energy))` and passed to
`storage.charge`; the device then records the input power for
`space_demand + energy`.  The second component returned is the energy value
passed to `charge` (exposed for specification). -/
def Building.update_cooling_storage (b : Building) (action : ℚ) : Building × ℚ :=
  let energy := action * b.cooling_storage.capacity
  let space_demand := (b.energy_simulation.cooling_demand b.time_step).getD 0
  let max_output := b.cooling_device.get_max_output_power (b.weather.outdoor_dry_bulb_temperature b.time_step) false
  let energy := max (-space_demand) (min (max_output - space_demand) energy)
  let b := { b with cooling_storage := b.cooling_storage.charge energy }
  let input_power := b.cooling_device.get_input_power (space_demand + energy) (b.weather.outdoor_dry_bulb_temperature b.time_step) false
  let b := { b with cooling_device := b.cooling_device.update_electricity_consumption input_power }
  (b, energy)

/-- `Building.update_heating_storage` (lines 640-659): as for cooling, with
the heating device, `heating=True`, and the `isinstance(·, HeatPump)`
dispatch on `get_max_output_power` and `get_input_power`. -/
def Building.update_heating_storage (b : Building) (action : ℚ) : Building × ℚ :=
  let energy := action * b.heating_storage.capacity
  let space_demand := (b.energy_simulation.heating_demand b.time_step).getD 0
  let max_output :=
    if b.heating_device.is_heat_pump then
      b.heating_device.get_max_output_power (b.weather.outdoor_dry_bulb_temperature b.time_step) true
    else
      b.heating_device.get_max_output_power_noargs
  let energy := max (-space_demand) (min (max_output - space_demand) energy)
  let b := { b with heating_storage := b.heating_storage.charge energy }
  let demand := space_demand + energy
  let input_power :=
    if b.heating_device.is_heat_pump then
      b.heating_device.get_input_power demand (b.weather.outdoor_dry_bulb_temperature b.time_step) true
    else
      b.heating_device.get_input_power_single demand
  let b := { b with heating_device := b.heating_device.update_electricity_consumption input_power }
  (b, energy)

/-- `Building.update_dhw_storage` (lines 661-680): as for heating, with the
DHW device and storage. -/
def Building.update_dhw_storage (b : Building) (action : ℚ) : Building × ℚ :=
  let energy := action * b.dhw_storage.capacity
  let space_demand := (b.energy_simulation.dhw_demand b.time_step).getD 0
  let max_output :=
    if b.dhw_device.is_heat_pump then
      b.dhw_device.get_max_output_power (b.weather.outdoor_dry_bulb_temperature b.time_step) true
    else
      b.dhw_device.get_max_output_power_noargs
  let energy := max (-space_demand) (min (max_output - space_demand) energy)
  let b := { b with dhw_storage := b.dhw_storage.charge energy }
  let demand := space_demand + energy
  let input_power :=
    if b.dhw_device.is_heat_pump then
      b.dhw_device.get_input_power demand (b.weather.outdoor_dry_bulb_temperature b.time_step) true
    else
      b.dhw_device.get_input_power_single demand
  let b := { b with dhw_device := b.dhw_device.update_electricity_consumption input_power }
  (b, energy)

/-- `Building.update_electrical_storage` (lines 682-692): the battery is
charged by `action * capacity` directly, with no clamping against a
conversion device. -/
def Building.update_electrical_storage (b : Building) (action : ℚ) : Building × ℚ :=
  let energy := action * b.electrical_storage.capacity
  ({ b with electrical_storage := b.electrical_storage.charge energy }, energy)

/-- `LSTMDynamicsBuilding.update_cooling_device` (lines 1098-1112): when the
cooling-device demand schedule flag is positive, the current-step cooling
demand is overwritten with the device's maximum output power at the current
outdoor temperature given `max_electric_power = min(action * nominal_power,
nominal_power)`; otherwise it is overwritten with `0`. -/
def Building.lstm_update_cooling_device (b : Building) (action : ℚ) : Building :=
  let demand :=
    if 0 < b.energy_simulation.cooling_device_demand_schedule then
      let electric_power := min (action * b.cooling_device.nominal_power) b.cooling_device.nominal_power
      b.cooling_device.get_max_output_power_elec (b.weather.outdoor_dry_bulb_temperature b.time_step) false electric_power
    else
      0
  { b with energy_simulation :=
      { b.energy_simulation with cooling_demand := Function.update b.energy_simulation.cooling_demand b.time_step (some demand) } }

/-- `LSTMDynamicsBuilding.update_heating_device` (lines 1114-1125): the
heating analogue, with `heating=True` and the heat-pump dispatch. -/
def Building.lstm_update_heating_device (b : Building) (action : ℚ) : Building :=
  let demand :=
    if 0 < b.energy_simulation.heating_device_demand_schedule then
      let electric_power := min (action * b.heating_device.nominal_power) b.heating_device.nominal_power
      if b.heating_device.is_heat_pump then
        b.heating_device.get_max_output_power_elec (b.weather.outdoor_dry_bulb_temperature b.time_step) true electric_power
      else
        b.heating_device.get_max_output_power_noargs
    else
      0
  { b with energy_simulation :=
      { b.energy_simulation with heating_demand := Function.update b.energy_simulation.heating_demand b.time_step (some demand) } }

/-! ### Surrogate-dynamics look-back windows

`LSTMDynamicsBuilding.update_dynamics` (lines 1019-1059) builds each model
input column as `np.roll(np.concatenate([arr, arr[-lookback:]]), shift)
[time_step : time_step + lookback]`.  The `q_hvac` column uses
`shift = lookback - 1`; the `indoor_dry_bulb_temperature` column and every
remaining feature column (direct solar irradiance, outdoor dry-bulb
temperature, occupant count, and the raw periodic series before cyclic
encoding) use `shift = lookback`. -/

/-- `np.roll(np.concatenate([arr, arr[-L:]]), s)[t : t + L]`: the wrapped
array extension followed by a circular shift by `s` and the length-`L`
slice starting at `t`.  `np.roll` satisfies `rolled[i] = ext[(i - s) mod n]`
with `n` the extended length, so row `j` of the window is
`ext[(t + j - s) mod n]`. -/
def roll_window (arr : List ℚ) (lookback shift t : ℕ) : List ℚ :=
  let ext := arr ++ arr.drop (arr.length - lookback)
  (List.range lookback).map (fun j => ext.getD ((t + j + ext.length - shift) % ext.length) 0)

/-- The `q_hvac` column of the model input (line 1028-1030):
`shift = lookback - 1`, sourced from the cooling-demand schedule. -/
def update_dynamics_qhvac_window (arr : List ℚ) (lookback t : ℕ) : List ℚ :=
  roll_window arr lookback (lookback - 1) t

/-- The `indoor_dry_bulb_temperature` column of the model input
(lines 1031-1033): `shift = lookback`. -/
def update_dynamics_temperature_window (arr : List ℚ) (lookback t : ℕ) : List ℚ :=
  roll_window arr lookback lookback t

/-- The generic feature column of the model input (periodic series at
lines 1046-1048 and the remaining columns at lines 1056-1059):
`shift = lookback`. -/
def update_dynamics_feature_window (arr : List ℚ) (lookback t : ℕ) : List ℚ :=
  roll_window arr lookback lookback t

/-! ### Action-space estimation

`Building.estimate_action_space` (lines 775-817).  The storage branch
computes `maximum_demand_over_capacity = maximum_demand / capacity` at line
808, BEFORE the `try` block at lines 810-815.  `maximum_demand` is
`ndarray.max()` of a float64 array, a `numpy.float64`, so the division is a
numpy scalar division: dividing by zero yields `inf`/`-inf`/`nan` (a
warning, not an exception) — a Python-level `ZeroDivisionError` is never
raised and the `except` handler that would append `[-1, 1]` is
unreachable.  This path genuinely manipulates IEEE special values, so it is
embedded over a dedicated float carrier. -/

/-- IEEE-style float value: a finite rational, a signed infinity, or NaN.
The operations defined on it below are exact (no rounding is involved in
the action-bound computation). -/
inductive PyFloat where
  | finite (q : ℚ)
  | inf
  | ninf
  | nan
deriving DecidableEq, Repr

/-- Float negation. -/
def PyFloat.neg : PyFloat → PyFloat
  | .finite q => .finite (-q)
  | .inf => .ninf
  | .ninf => .inf
  | .nan => .nan

/-- numpy scalar true division.  Division of a finite value by zero yields
`inf`, `-inf` or `nan` according to the sign of the dividend (numpy emits a
warning, not an exception).  Only the finite/finite case is exercised by
the estimator; the remaining cases follow IEEE. -/
def PyFloat.div : PyFloat → PyFloat → PyFloat
  | .finite x, .finite y =>
      if y = 0 then (if 0 < x then .inf else if x < 0 then .ninf else .nan)
      else .finite (x / y)
  | .nan, _ => .nan
  | _, .nan => .nan
  | .inf, .finite y => if 0 ≤ y then .inf else .ninf
  | .ninf, .finite y => if 0 ≤ y then .ninf else .inf
  | .finite _, .inf => .finite 0
  | .finite _, .ninf => .finite 0
  | .inf, .inf => .nan
  | .inf, .ninf => .nan
  | .ninf, .inf => .nan
  | .ninf, .ninf => .nan

/-- Python float `<`: every comparison against NaN is false. -/
def PyFloat.lt : PyFloat → PyFloat → Bool
  | .nan, _ => false
  | _, .nan => false
  | .finite a, .finite b => a < b
  | .finite _, .inf => true
  | .ninf, .finite _ => true
  | .ninf, .inf => true
  | .inf, _ => false
  | .finite _, .ninf => false
  | .ninf, .ninf => false

/-- Python builtin `max(a, b)`: the running result starts at `a` and is
replaced by `b` only when `a < b` holds — so a NaN first argument is
returned unchanged. -/
def PyFloat.py_max (a b : PyFloat) : PyFloat :=
  if PyFloat.lt a b then b else a

/-- Python builtin `min(a, b)`: `b` is taken only when `b < a` holds. -/
def PyFloat.py_min (a b : PyFloat) : PyFloat :=
  if PyFloat.lt b a then b else a

/-- The storage branch of `estimate_action_space` (lines 804-815): the
(low, high) pair appended for one storage action, given the storage
`capacity` and the horizon maximum of the matching demand series (both
finite floats).  `low = max(-maximum_demand_over_capacity, -1.0)`,
`high = min(maximum_demand_over_capacity, 1.0)`. -/
def storage_action_bound (capacity maximum_demand : ℚ) : PyFloat × PyFloat :=
  let maximum_demand_over_capacity := PyFloat.div (.finite maximum_demand) (.finite capacity)
  (PyFloat.py_max maximum_demand_over_capacity.neg (.finite (-1)),
   PyFloat.py_min maximum_demand_over_capacity (.finite 1))

/-- `Building.estimate_action_space` (lines 775-817): one (low, high) pair
per active action.  `electrical_storage` gets `[-1, 1]`; the device actions
get `[0, 1]`; each remaining (storage) action key `k` gets the storage
bound computed from `vars(self)['_Building__' + k].capacity` and the
horizon maximum of the demand series selected by the key's first word —
both passed in as finite lookup functions. -/
def estimate_action_space (active_actions : List String)
    (capacity maximum_demand : String → ℚ) : List (PyFloat × PyFloat) :=
  active_actions.map (fun key =>
    if key = "electrical_storage" then
      (.finite (-1), .finite 1)
    else if key = "cooling_device" ∨ key = "heating_device" then
      (.finite 0, .finite 1)
    else
      storage_action_bound (capacity key) (maximum_demand key))

/-! ### Observation assembler -/

/-- Lookup in a Python dict literal built with possibly repeated keys:
a later occurrence of a key overrides an earlier one, so the association
list is searched from the end. -/
def dict_find (data : List (String × ℚ)) (k : String) : Option ℚ :=
  data.reverse.lookup k

/-- `Building.active_observations` (lines 218-222): the metadata names with
a `True` value, in metadata order. -/
def Building.active_observations (b : Building) : List String :=
  (b.observation_metadata.filter (fun p => p.2)).map (fun p => p.1)

/-- The `data` dict literal of the `observations` property (lines 188-212),
in source order: the `vars(...)` expansions of the four data containers
evaluated at the current step, the PV-converted solar generation (which
overrides the raw `solar_generation` schedule key), the storage SOC
fractions (the battery using `capacity_history[0]`), the current net
electricity consumption ledger entry, the device COPs — note that
`heating_device_cop` is produced by `self.cooling_device.get_cop(...,
heating=True)` whenever the heating device is a heat pump, and by the
heating device's own fixed `efficiency` otherwise —, the current thermal
demands (overriding the schedule keys), the set points, the absolute
set-point/indoor-temperature deltas and the occupant count.  Demand values
are the rational stand-ins for the raw float entries (`getD 0`). -/
def observations_data (b : Building) : List (String × ℚ) :=
  let t := b.time_step
  [("month", b.energy_simulation.month t),
   ("hour", b.energy_simulation.hour t),
   ("day_type", b.energy_simulation.day_type t),
   ("daylight_savings_status", b.energy_simulation.daylight_savings_status t),
   ("indoor_dry_bulb_temperature", b.energy_simulation.indoor_dry_bulb_temperature t),
   ("average_unmet_cooling_setpoint_difference", b.energy_simulation.average_unmet_cooling_setpoint_difference t),
   ("indoor_relative_humidity", b.energy_simulation.indoor_relative_humidity t),
   ("non_shiftable_load", b.energy_simulation.non_shiftable_load t),
   ("dhw_demand", (b.energy_simulation.dhw_demand t).getD 0),
   ("cooling_demand", (b.energy_simulation.cooling_demand t).getD 0),
   ("heating_demand", (b.energy_simulation.heating_demand t).getD 0),
   ("solar_generation", b.energy_simulation.solar_generation t),
   ("outdoor_dry_bulb_temperature", b.weather.outdoor_dry_bulb_temperature t),
   ("outdoor_relative_humidity", b.weather.outdoor_relative_humidity t),
   ("diffuse_solar_irradiance", b.weather.diffuse_solar_irradiance t),
   ("direct_solar_irradiance", b.weather.direct_solar_irradiance t),
   ("outdoor_dry_bulb_temperature_predicted_6h", b.weather.outdoor_dry_bulb_temperature_predicted_6h t),
   ("outdoor_dry_bulb_temperature_predicted_12h", b.weather.outdoor_dry_bulb_temperature_predicted_12h t),
   ("outdoor_dry_bulb_temperature_predicted_24h", b.weather.outdoor_dry_bulb_temperature_predicted_24h t),
   ("outdoor_relative_humidity_predicted_6h", b.weather.outdoor_relative_humidity_predicted_6h t),
   ("outdoor_relative_humidity_predicted_12h", b.weather.outdoor_relative_humidity_predicted_12h t),
   ("outdoor_relative_humidity_predicted_24h", b.weather.outdoor_relative_humidity_predicted_24h t),
   ("diffuse_solar_irradiance_predicted_6h", b.weather.diffuse_solar_irradiance_predicted_6h t),
   ("diffuse_solar_irradiance_predicted_12h", b.weather.diffuse_solar_irradiance_predicted_12h t),
   ("diffuse_solar_irradiance_predicted_24h", b.weather.diffuse_solar_irradiance_predicted_24h t),
   ("direct_solar_irradiance_predicted_6h", b.weather.direct_solar_irradiance_predicted_6h t),
   ("direct_solar_irradiance_predicted_12h", b.weather.direct_solar_irradiance_predicted_12h t),
   ("direct_solar_irradiance_predicted_24h", b.weather.direct_solar_irradiance_predicted_24h t),
   ("electricity_pricing", b.pricing.electricity_pricing t),
   ("electricity_pricing_predicted_6h", b.pricing.electricity_pricing_predicted_6h t),
   ("electricity_pricing_predicted_12h", b.pricing.electricity_pricing_predicted_12h t),
   ("electricity_pricing_predicted_24h", b.pricing.electricity_pricing_predicted_24h t),
   ("solar_generation", b.pv_generation (b.energy_simulation.solar_generation t)),
   ("cooling_storage_soc", b.cooling_storage.soc t / b.cooling_storage.capacity),
   ("heating_storage_soc", b.heating_storage.soc t / b.heating_storage.capacity),
   ("dhw_storage_soc", b.dhw_storage.soc t / b.dhw_storage.capacity),
   ("electrical_storage_soc", b.electrical_storage.soc t / b.electrical_storage.capacity_history.getD 0 0),
   ("net_electricity_consumption", b.net_electricity_consumption.getD t 0),
   ("carbon_intensity", b.carbon_intensity.carbon_intensity t),
   ("cooling_device_cop", b.cooling_device.get_cop (b.weather.outdoor_dry_bulb_temperature t) false),
   ("heating_device_cop",
     if b.heating_device.is_heat_pump then
       b.cooling_device.get_cop (b.weather.outdoor_dry_bulb_temperature t) true
     else
       b.heating_device.efficiency),
   ("cooling_demand", (b.energy_simulation.cooling_demand t).getD 0),
   ("heating_demand", (b.energy_simulation.heating_demand t).getD 0),
   ("cooling_dry_bulb_temperature_set_point", b.energy_simulation.cooling_dry_bulb_temperature_set_point t),
   ("heating_dry_bulb_temperature_set_point", b.energy_simulation.heating_dry_bulb_temperature_set_point t),
   ("cooling_dry_bulb_temperature_delta", |b.energy_simulation.cooling_dry_bulb_temperature_set_point t - b.energy_simulation.indoor_dry_bulb_temperature t|),
   ("heating_dry_bulb_temperature_delta", |b.energy_simulation.heating_dry_bulb_temperature_set_point t - b.energy_simulation.indoor_dry_bulb_temperature t|),
   ("occupant_count", b.energy_simulation.occupant_count t)]

/-- The `observations` property (lines 184-216): restrict the assembled
data to the active observation names, in active order; collect the active
names that resolve to no data entry (the source materialises them as
`set(active).difference(observations.keys())`, hence the deduplication);
the assertion `len(unknown_observations) == 0` raises an error carrying the
unresolved names when any name failed to resolve, otherwise the restricted
mapping is returned. -/
def Building.observations (b : Building) : Except (List String) (List (String × ℚ)) :=
  let data := observations_data b
  let obs := b.active_observations.filterMap (fun k => (dict_find data k).map (fun v => (k, v)))
  let unknown_observations := (b.active_observations.filter (fun k => (dict_find data k).isNone)).dedup
  if unknown_observations.length = 0 then .ok obs else .error unknown_observations

/-! ### Concrete instances for scenario conjuncts and witnesses -/

/-- A concrete heat-pump capability record. -/
def sample_heat_pump : Device :=
  { is_heat_pump := true
    nominal_power := 4
    efficiency := 9/10
    get_max_output_power := fun _ _ => 5
    get_max_output_power_noargs := 5
    get_max_output_power_elec := fun _ _ p => 2 * p
    get_input_power := fun d _ _ => d / 2
    get_input_power_single := fun d => d
    get_cop := fun _ h => if h then 3 else 2
    electricity_consumption_log := [] }

/-- A concrete electric-heater capability record: input power is the demand
itself (efficiency 1). -/
def sample_heater : Device :=
  { sample_heat_pump with
    is_heat_pump := false
    efficiency := 1
    get_input_power_single := fun d => d }

/-- A concrete thermal storage with zero balance. -/
def sample_storage : StorageDevice :=
  { capacity := 10, energy_balance := fun _ => 0, soc := fun _ => 0, charge_log := [] }

/-- A concrete battery. -/
def sample_battery : Battery :=
  { capacity := 2, capacity_history := [2], energy_balance := fun _ => 0
    soc := fun _ => 0, electricity_consumption := fun _ => 1, charge_log := [] }

/-- A concrete energy-simulation container with constant series. -/
def sample_energy_simulation : EnergySimulation :=
  { month := fun _ => 1
    hour := fun _ => 0
    day_type := fun _ => 1
    daylight_savings_status := fun _ => 0
    indoor_dry_bulb_temperature := fun _ => 21
    average_unmet_cooling_setpoint_difference := fun _ => 0
    indoor_relative_humidity := fun _ => 50
    non_shiftable_load := fun _ => 3
    dhw_demand := fun _ => some 1
    cooling_demand := fun _ => some 2
    heating_demand := fun _ => some 3
    solar_generation := fun _ => 2
    occupant_count := fun _ => 1
    cooling_dry_bulb_temperature_set_point := fun _ => 24
    heating_dry_bulb_temperature_set_point := fun _ => 19
    cooling_device_demand_schedule := 1
    heating_device_demand_schedule := 1 }

/-- A concrete weather container with constant series. -/
def sample_weather : Weather :=
  { outdoor_dry_bulb_temperature := fun _ => 30
    outdoor_relative_humidity := fun _ => 40
    diffuse_solar_irradiance := fun _ => 100
    direct_solar_irradiance := fun _ => 200
    outdoor_dry_bulb_temperature_predicted_6h := fun _ => 30
    outdoor_dry_bulb_temperature_predicted_12h := fun _ => 30
    outdoor_dry_bulb_temperature_predicted_24h := fun _ => 30
    outdoor_relative_humidity_predicted_6h := fun _ => 40
    outdoor_relative_humidity_predicted_12h := fun _ => 40
    outdoor_relative_humidity_predicted_24h := fun _ => 40
    diffuse_solar_irradiance_predicted_6h := fun _ => 100
    diffuse_solar_irradiance_predicted_12h := fun _ => 100
    diffuse_solar_irradiance_predicted_24h := fun _ => 100
    direct_solar_irradiance_predicted_6h := fun _ => 200
    direct_solar_irradiance_predicted_12h := fun _ => 200
    direct_solar_irradiance_predicted_24h := fun _ => 200 }

/-- A concrete building.  `solar_generation` is stored in the shape `reset`
establishes at line 941: the elementwise PV conversion of the schedule,
times `-1`. -/
def sample_building : Building :=
  { time_step := 0
    energy_simulation := sample_energy_simulation
    weather := sample_weather
    pricing := { electricity_pricing := fun _ => 1/10
                 electricity_pricing_predicted_6h := fun _ => 1/10
                 electricity_pricing_predicted_12h := fun _ => 1/10
                 electricity_pricing_predicted_24h := fun _ => 1/10 }
    carbon_intensity := { carbon_intensity := fun _ => 1/5 }
    cooling_device := sample_heat_pump
    heating_device := sample_heat_pump
    dhw_device := sample_heater
    cooling_storage := sample_storage
    heating_storage := sample_storage
    dhw_storage := sample_storage
    electrical_storage := sample_battery
    pv_generation := fun x => x
    solar_generation := fun _ => (2 : ℚ) * (-1)
    cooling_electricity_consumption := [0]
    heating_electricity_consumption := [0]
    dhw_electricity_consumption := [0]
    net_electricity_consumption := [0]
    net_electricity_consumption_price := [0]
    net_electricity_consumption_emission := [0]
    observation_metadata := [("month", true), ("hour", false), ("heating_device_cop", true)] }

/-- The C2 scenario building: cooling storage capacity 10, zero space
cooling demand, cooling-device maximum output 5. -/
def c2_building : Building :=
  { sample_building with
    energy_simulation := { sample_energy_simulation with cooling_demand := fun _ => some 0 } }

/-- The C2 scenario building with a missing (None/NaN) cooling demand
entry. -/
def c2_building_nan : Building :=
  { sample_building with
    energy_simulation := { sample_energy_simulation with cooling_demand := fun _ => none } }

/-- The C3 building: the heating device is an electric heater whose own
input power function is the identity, while the DHW device's
single-argument input power function doubles the demand. -/
def c3_building : Building :=
  { sample_building with
    heating_device := sample_heater
    dhw_device := { sample_heater with get_input_power_single := fun d => 2 * d } }

/-- The C9 buildings: the demand-enabling schedule flag set negative and
positive. -/
def c9_building_disabled : Building :=
  { sample_building with
    energy_simulation := { sample_energy_simulation with cooling_device_demand_schedule := -1 } }

/-- See `c9_building_disabled`. -/
def c9_building_enabled : Building := sample_building

/-- The C10 building: the heating device is a heat pump whose own COP
function is constantly 3, while the cooling device reports COP 7 in heating
mode. -/
def c10_building : Building :=
  { sample_building with
    heating_device := { sample_heat_pump with get_cop := fun _ _ => 3 }
    cooling_device := { sample_heat_pump with get_cop := fun _ h => if h then 7 else 2 } }

/-- A building on which every active observation resolves. -/
def c7_building_ok : Building := sample_building

/-- A building with an active observation name that no data entry bears. -/
def c7_building_bad : Building :=
  { sample_building with
    observation_metadata := [("month", true), ("no_such_observation", true)] }

/-! ### Helper lemmas -/

/-- The last entry of a ledger after an append is the appended value. -/
theorem getLast_append_singleton (l : List ℚ) (a : ℚ) :
    (l ++ [a]).getLast?.getD 0 = a := by
  rw [List.getLast?_append_of_ne_nil l (by simp)]
  rfl

/-- An append leaves the existing entries untouched. -/
theorem take_append_singleton (l : List ℚ) (a : ℚ) :
    (l ++ [a]).take l.length = l := by
  simp [List.take_left]

/-- Keys of the restriction of a fully resolving data map. -/
theorem filterMap_resolved_keys (data : List (String × ℚ)) :
    ∀ active : List String, (∀ k ∈ active, (dict_find data k).isSome) →
      (active.filterMap (fun k => (dict_find data k).map (fun v => (k, v)))).map Prod.fst
        = active := by
  intro active
  induction active with
  | nil => intro _; rfl
  | cons k ks ih =>
    intro h
    obtain ⟨v, hv⟩ := Option.isSome_iff_exists.mp (h k (by simp))
    simp only [List.filterMap_cons, hv, Option.map_some', List.map_cons]
    exact congrArg _ (ih fun x hx => h x (by simp [hx]))

/-! ### Claim theorems -/

/-- C1: for the step completed by `update_variables`, the appended net
electricity consumption ledger entry equals the sum of the cooling,
heating and DHW electricity consumptions computed at that step (the entries
appended to their ledgers in the same call), the electrical storage's
electricity consumption at the step, the non-shiftable load at the step and
the solar generation at the step; under the reset-established shape of the
cached solar array (line 941) and nonnegative PV output, the solar term is
nonpositive. -/
theorem c1_net_consumption_ledger_sum (b : Building)
    (hsol : b.solar_generation
      = fun s => b.pv_generation (b.energy_simulation.solar_generation s) * (-1))
    (hpv : 0 ≤ b.pv_generation (b.energy_simulation.solar_generation b.time_step)) :
    b.update_variables.net_electricity_consumption
      = b.net_electricity_consumption ++
        [b.update_variables.cooling_electricity_consumption.getLast?.getD 0
          + b.update_variables.heating_electricity_consumption.getLast?.getD 0
          + b.update_variables.dhw_electricity_consumption.getLast?.getD 0
          + b.electrical_storage.electricity_consumption b.time_step
          + b.energy_simulation.non_shiftable_load b.time_step
          + b.solar_generation b.time_step]
    ∧ b.solar_generation b.time_step ≤ 0 := by
  refine ⟨?_, ?_⟩
  · simp only [Building.update_variables, getLast_append_singleton]
  · rw [hsol]
    simp only
    nlinarith [hpv]

/-- C1 witness: the theorem applied to the concrete sample building. -/
theorem c1_net_consumption_ledger_sum_witness :
    sample_building.update_variables.net_electricity_consumption
      = sample_building.net_electricity_consumption ++
        [sample_building.update_variables.cooling_electricity_consumption.getLast?.getD 0
          + sample_building.update_variables.heating_electricity_consumption.getLast?.getD 0
          + sample_building.update_variables.dhw_electricity_consumption.getLast?.getD 0
          + sample_building.electrical_storage.electricity_consumption sample_building.time_step
          + sample_building.energy_simulation.non_shiftable_load sample_building.time_step
          + sample_building.solar_generation sample_building.time_step]
    ∧ sample_building.solar_generation sample_building.time_step ≤ 0 :=
  c1_net_consumption_ledger_sum sample_building rfl (by norm_num [sample_building, sample_energy_simulation])

/-- C2: for every cooling, heating and DHW storage update, the energy
passed to `storage.charge` is `max(-d, min(m - d, action * capacity))`,
with `d` the current-step exogenous demand after the missing/NaN
substitution and `m` the device's maximum output power under the dispatch
the source performs (cooling: `heating=False`; heating and DHW:
`heating=True` for a heat pump, the zero-argument form otherwise);
moreover, in the scenario with action `+1.0`, capacity `10`, zero space
demand and maximum output `5`, the charge request resolves to `5`, not
`10`, and a missing (None/NaN) space demand behaves as zero. -/
theorem c2_storage_charge_clamp :
    (∀ (b : Building) (a : ℚ),
      (b.update_cooling_storage a).1.cooling_storage.charge_log
        = b.cooling_storage.charge_log ++
          [max (-((b.energy_simulation.cooling_demand b.time_step).getD 0))
            (min (b.cooling_device.get_max_output_power
                    (b.weather.outdoor_dry_bulb_temperature b.time_step) false
                  - (b.energy_simulation.cooling_demand b.time_step).getD 0)
              (a * b.cooling_storage.capacity))]
      ∧ (b.update_heating_storage a).1.heating_storage.charge_log
        = b.heating_storage.charge_log ++
          [max (-((b.energy_simulation.heating_demand b.time_step).getD 0))
            (min ((if b.heating_device.is_heat_pump then
                    b.heating_device.get_max_output_power
                      (b.weather.outdoor_dry_bulb_temperature b.time_step) true
                  else b.heating_device.get_max_output_power_noargs)
                  - (b.energy_simulation.heating_demand b.time_step).getD 0)
              (a * b.heating_storage.capacity))]
      ∧ (b.update_dhw_storage a).1.dhw_storage.charge_log
        = b.dhw_storage.charge_log ++
          [max (-((b.energy_simulation.dhw_demand b.time_step).getD 0))
            (min ((if b.dhw_device.is_heat_pump then
                    b.dhw_device.get_max_output_power
                      (b.weather.outdoor_dry_bulb_temperature b.time_step) true
                  else b.dhw_device.get_max_output_power_noargs)
                  - (b.energy_simulation.dhw_demand b.time_step).getD 0)
              (a * b.dhw_storage.capacity))])
    ∧ (c2_building.update_cooling_storage 1).1.cooling_storage.charge_log = [5]
    ∧ (c2_building.update_cooling_storage 1).1.cooling_storage.charge_log
        ≠ [1 * c2_building.cooling_storage.capacity]
    ∧ (c2_building_nan.update_cooling_storage 1).1.cooling_storage.charge_log = [5] := by
  refine ⟨fun b a => ⟨rfl, rfl, rfl⟩, ?_, ?_, ?_⟩
  · norm_num [c2_building, Building.update_cooling_storage, StorageDevice.charge,
      sample_building, sample_energy_simulation, sample_storage, sample_heat_pump, sample_weather]
  · norm_num [c2_building, Building.update_cooling_storage, StorageDevice.charge,
      sample_building, sample_energy_simulation, sample_storage, sample_heat_pump, sample_weather]
  · norm_num [c2_building_nan, Building.update_cooling_storage, StorageDevice.charge,
      sample_building, sample_energy_simulation, sample_storage, sample_heat_pump, sample_weather]

/-- C3 (code evaluation at the failing input): on a building whose heating
device is an electric heater (identity input power) and whose DHW device
doubles its demand, the heating ledger entry appended by `update_variables`
is the DHW device's single-argument input power applied to the heating
demand — line 959 reads `self.dhw_device.get_input_power(heating_demand)`
— and differs from the heating device's own input power, contradicting the
claim (and the docstring of `heating_electricity_consumption` and the
symmetric `heating_storage_electricity_consumption` property, which both
use the heating device). -/
theorem c3_heating_ledger_uses_dhw_device_eval :
    c3_building.update_variables.heating_electricity_consumption.getLast?.getD 0
        = c3_building.dhw_device.get_input_power_single 3
    ∧ c3_building.update_variables.heating_electricity_consumption.getLast?.getD 0
        ≠ c3_building.heating_device.get_input_power_single 3 := by
  refine ⟨?_, ?_⟩ <;>
    norm_num [c3_building, Building.update_variables, getLast_append_singleton,
      sample_building, sample_energy_simulation, sample_storage, sample_heater, sample_heat_pump]

/-- C4: the emission ledger entry appended by `update_variables` equals
`max(0, net electricity consumption at the step * carbon intensity at the
step)` — the net value being the entry appended to the net ledger in the
same call — and is never negative, for every state, with no sign
restriction on the net consumption. -/
theorem c4_emission_ledger (b : Building) :
    b.update_variables.net_electricity_consumption_emission
      = b.net_electricity_consumption_emission ++
        [max 0 (b.update_variables.net_electricity_consumption.getLast?.getD 0
            * b.carbon_intensity.carbon_intensity b.time_step)]
    ∧ 0 ≤ b.update_variables.net_electricity_consumption_emission.getLast?.getD 0 := by
  refine ⟨?_, ?_⟩
  · simp only [Building.update_variables, getLast_append_singleton]
  · simp only [Building.update_variables, getLast_append_singleton]
    exact le_max_left 0 _

/-- The C5 ledger-length invariant: each of the six time-series ledgers has
exactly `time_step + 1` entries. -/
def ledger_invariant (b : Building) : Prop :=
  b.cooling_electricity_consumption.length = b.time_step + 1
  ∧ b.heating_electricity_consumption.length = b.time_step + 1
  ∧ b.dhw_electricity_consumption.length = b.time_step + 1
  ∧ b.net_electricity_consumption.length = b.time_step + 1
  ∧ b.net_electricity_consumption_price.length = b.time_step + 1
  ∧ b.net_electricity_consumption_emission.length = b.time_step + 1

/-- C5: after `reset` every ledger has length `time_step + 1`; the
invariant is preserved by `next_time_step`; and `next_time_step` never
rewrites an existing entry — the new ledgers restricted to the old length
(the indices strictly below the new `time_step` once the invariant holds)
are the old ledgers. -/
theorem c5_ledger_length_append_only (b : Building) :
    ledger_invariant b.reset
    ∧ (ledger_invariant b → ledger_invariant b.next_time_step)
    ∧ b.next_time_step.cooling_electricity_consumption.take
        b.cooling_electricity_consumption.length = b.cooling_electricity_consumption
    ∧ b.next_time_step.heating_electricity_consumption.take
        b.heating_electricity_consumption.length = b.heating_electricity_consumption
    ∧ b.next_time_step.dhw_electricity_consumption.take
        b.dhw_electricity_consumption.length = b.dhw_electricity_consumption
    ∧ b.next_time_step.net_electricity_consumption.take
        b.net_electricity_consumption.length = b.net_electricity_consumption
    ∧ b.next_time_step.net_electricity_consumption_price.take
        b.net_electricity_consumption_price.length = b.net_electricity_consumption_price
    ∧ b.next_time_step.net_electricity_consumption_emission.take
        b.net_electricity_consumption_emission.length = b.net_electricity_consumption_emission := by
  refine ⟨?_, ?_, ?_, ?_, ?_, ?_, ?_, ?_⟩
  · simp [Building.reset, Building.update_variables, ledger_invariant]
  · intro h
    obtain ⟨h1, h2, h3, h4, h5, h6⟩ := h
    refine ⟨?_, ?_, ?_, ?_, ?_, ?_⟩ <;>
      simp [Building.next_time_step, Building.update_variables, h1, h2, h3, h4, h5, h6]
  all_goals
    simp only [Building.next_time_step, Building.update_variables]
    exact take_append_singleton _ _

/-- C5 witness: the invariant holds on the sample building after `reset`
and is carried through a subsequent `next_time_step`. -/
theorem c5_ledger_length_append_only_witness :
    ledger_invariant sample_building.reset
    ∧ ledger_invariant sample_building.reset.next_time_step :=
  ⟨(c5_ledger_length_append_only sample_building).1,
   (c5_ledger_length_append_only sample_building.reset).2.1
     (c5_ledger_length_append_only sample_building).1⟩

/-- C6 (code evaluation at the failing input): for a cooling storage with
capacity 0, the bound appended by `estimate_action_space` is `[nan, nan]`
when the horizon-maximum cooling demand is 0 — `maximum_demand / capacity`
is the numpy division `0.0 / 0.0 = nan`, computed at line 808 outside the
`try` block, and the Python builtins `max(nan, -1.0)` and `min(nan, 1.0)`
both return their NaN first argument — so the bound is not `[-1, 1]` and
the `except ZeroDivisionError` fallback that would produce `[-1, 1]` never
fires.  When the maximum demand is positive the division yields `inf` and
the bound does come out as exactly `[-1, 1]` (via IEEE infinity, not via
the handler). -/
theorem c6_zero_capacity_bound_eval :
    estimate_action_space ["cooling_storage"] (fun _ => 0) (fun _ => 0)
        = [(PyFloat.nan, PyFloat.nan)]
    ∧ estimate_action_space ["cooling_storage"] (fun _ => 0) (fun _ => 0)
        ≠ [(PyFloat.finite (-1), PyFloat.finite 1)]
    ∧ estimate_action_space ["cooling_storage"] (fun _ => 0) (fun _ => 5)
        = [(PyFloat.finite (-1), PyFloat.finite 1)] := by
  refine ⟨?_, ?_, ?_⟩ <;> decide

/-- C7: whenever some active-observation name resolves to no entry of the
assembled data, the `observations` property fails with an error carrying
exactly the unresolved active names (nothing is silently dropped); whenever
every active name resolves, it returns a mapping whose keys are exactly the
active observations, in order. -/
theorem c7_observations_resolution (b : Building) :
    ((∃ k ∈ b.active_observations, dict_find (observations_data b) k = none) →
      ∃ l, b.observations = .error l
        ∧ ∀ k, k ∈ l ↔ k ∈ b.active_observations ∧ dict_find (observations_data b) k = none)
    ∧ ((∀ k ∈ b.active_observations, (dict_find (observations_data b) k).isSome) →
      ∃ obs, b.observations = .ok obs ∧ obs.map Prod.fst = b.active_observations) := by
  constructor
  · rintro ⟨k, hk, hnone⟩
    have hmem : k ∈ (b.active_observations.filter
        (fun k => (dict_find (observations_data b) k).isNone)).dedup := by
      rw [List.mem_dedup, List.mem_filter]
      exact ⟨hk, by simp [hnone]⟩
    refine ⟨(b.active_observations.filter
        (fun k => (dict_find (observations_data b) k).isNone)).dedup, ?_, ?_⟩
    · unfold Building.observations
      rw [if_neg]
      intro hlen
      rw [List.length_eq_zero] at hlen
      simp [hlen] at hmem
    · intro x
      rw [List.mem_dedup, List.mem_filter]
      simp [Option.isNone_iff_eq_none]
  · intro h
    refine ⟨b.active_observations.filterMap
        (fun k => (dict_find (observations_data b) k).map (fun v => (k, v))), ?_, ?_⟩
    · unfold Building.observations
      rw [if_pos]
      rw [List.length_eq_zero, List.dedup_eq_nil, List.filter_eq_nil_iff]
      intro k hk
      simp only [Option.isNone_iff_eq_none, decide_eq_true_eq]
      obtain ⟨v, hv⟩ := Option.isSome_iff_exists.mp (h k hk)
      simp [hv]
    · exact filterMap_resolved_keys (observations_data b) b.active_observations h

/-- C7 witness: on a building whose active observations all resolve the
property returns exactly them, and on a building with an unresolvable
active name it fails naming that name. -/
theorem c7_observations_resolution_witness :
    (∃ obs, c7_building_ok.observations = .ok obs
      ∧ obs.map Prod.fst = c7_building_ok.active_observations)
    ∧ (∃ l, c7_building_bad.observations = .error l
        ∧ ∀ k, k ∈ l ↔ k ∈ c7_building_bad.active_observations
            ∧ dict_find (observations_data c7_building_bad) k = none) :=
  ⟨(c7_observations_resolution c7_building_ok).2 (by decide),
   (c7_observations_resolution c7_building_bad).1
     ⟨"no_such_observation", by decide, by decide⟩⟩

/-- C8 counterexample: on the identity-valued horizon series `[0, 1, 2, 3]`
(each sample equal to its own time step), lookback 2, time step 2, the
indoor-temperature column and a generic feature column (direct solar
irradiance, outdoor temperature, occupant count, or a cyclic series) are
EQUAL — both windows sample steps 0 and 1 — whereas the claim, which says
the temperature sample is one step older than every other feature's sample
at each row, would force the temperature row to equal the feature row minus
one. -/
theorem c8_temperature_shift_counterexample :
    update_dynamics_temperature_window [0, 1, 2, 3] 2 2
        = update_dynamics_feature_window [0, 1, 2, 3] 2 2
    ∧ (update_dynamics_temperature_window [0, 1, 2, 3] 2 2).getD 0 0
        ≠ (update_dynamics_feature_window [0, 1, 2, 3] 2 2).getD 0 0 - 1 := by
  refine ⟨rfl, ?_⟩
  show (0 : ℚ) ≠ (0 : ℚ) - 1
  norm_num

/-- C8 amended: in the look-back window, only the `q_hvac` column is
shifted — by one step NEWER — relative to the rest: the q_hvac window built
at step `t` coincides with the generic feature window built at step
`t + 1`, while the indoor-temperature column uses exactly the generic
feature shift.  So the temperature sample is one step older than the
q_hvac sample at each row, but has the same age as the direct solar
irradiance, outdoor temperature, occupant count and cyclic samples. -/
theorem c8_qhvac_shift_amended (arr : List ℚ) (lookback t : ℕ)
    (h1 : 1 ≤ lookback) :
    update_dynamics_qhvac_window arr lookback t
        = update_dynamics_feature_window arr lookback (t + 1)
    ∧ update_dynamics_temperature_window arr lookback t
        = update_dynamics_feature_window arr lookback t := by
  refine ⟨?_, rfl⟩
  unfold update_dynamics_qhvac_window update_dynamics_feature_window roll_window
  simp only
  apply List.map_congr_left
  intro j _
  have h2 : t + j + (arr ++ List.drop (arr.length - lookback) arr).length - (lookback - 1)
      = t + 1 + j + (arr ++ List.drop (arr.length - lookback) arr).length - lookback := by
    omega
  rw [h2]

/-- C8 amended witness: the amended theorem applied at the counterexample's
input. -/
theorem c8_qhvac_shift_amended_witness :
    update_dynamics_qhvac_window [0, 1, 2, 3] 2 2
        = update_dynamics_feature_window [0, 1, 2, 3] 2 3
    ∧ update_dynamics_temperature_window [0, 1, 2, 3] 2 2
        = update_dynamics_feature_window [0, 1, 2, 3] 2 2 :=
  c8_qhvac_shift_amended [0, 1, 2, 3] 2 2 (by decide)

/-- C9: in the temperature-driven (LSTM) building variant, the
cooling-device update overwrites the current-step cooling demand with `0`
whenever the demand-enabling schedule flag is at most zero, regardless of
the action; otherwise it overwrites it with the cooling device's maximum
output power at the current outdoor temperature given the bounded electric
power `min(action * nominal_power, nominal_power)`. -/
theorem c9_lstm_cooling_device_update (b : Building) (action : ℚ) :
    (b.energy_simulation.cooling_device_demand_schedule ≤ 0 →
      (b.lstm_update_cooling_device action).energy_simulation.cooling_demand b.time_step
        = some 0)
    ∧ (0 < b.energy_simulation.cooling_device_demand_schedule →
      (b.lstm_update_cooling_device action).energy_simulation.cooling_demand b.time_step
        = some (b.cooling_device.get_max_output_power_elec
            (b.weather.outdoor_dry_bulb_temperature b.time_step) false
            (min (action * b.cooling_device.nominal_power) b.cooling_device.nominal_power))) := by
  constructor
  · intro h
    simp [Building.lstm_update_cooling_device, Function.update_same, not_lt.mpr h]
  · intro h
    simp [Building.lstm_update_cooling_device, Function.update_same, h]

/-- C9 witness: the theorem applied to a building with the schedule flag
negative (any action yields a zero demand) and to one with it positive
(action 3 against nominal power 4 and the doubling output function yields
demand 8). -/
theorem c9_lstm_cooling_device_update_witness :
    (c9_building_disabled.lstm_update_cooling_device 3).energy_simulation.cooling_demand
        c9_building_disabled.time_step = some 0
    ∧ (c9_building_enabled.lstm_update_cooling_device 3).energy_simulation.cooling_demand
        c9_building_enabled.time_step
      = some (c9_building_enabled.cooling_device.get_max_output_power_elec
          (c9_building_enabled.weather.outdoor_dry_bulb_temperature c9_building_enabled.time_step)
          false
          (min (3 * c9_building_enabled.cooling_device.nominal_power)
            c9_building_enabled.cooling_device.nominal_power)) :=
  ⟨(c9_lstm_cooling_device_update c9_building_disabled 3).1 (by norm_num [c9_building_disabled, sample_energy_simulation]),
   (c9_lstm_cooling_device_update c9_building_enabled 3).2 (by norm_num [c9_building_enabled, sample_building, sample_energy_simulation])⟩

/-- C10: the `heating_device_cop` entry of the observation data is produced
by the COOLING device's `get_cop` function called with `heating=True`
whenever the heating device is a heat pump, and by the heating device's own
fixed efficiency otherwise; on a concrete building whose heating heat
pump reports COP 3 while the cooling device reports COP 7 in heating mode,
the entry is 7, not the heating device's own value. -/
theorem c10_heating_cop_from_cooling_device :
    (∀ b : Building,
      dict_find (observations_data b) "heating_device_cop"
        = some (if b.heating_device.is_heat_pump then
            b.cooling_device.get_cop (b.weather.outdoor_dry_bulb_temperature b.time_step) true
          else b.heating_device.efficiency))
    ∧ dict_find (observations_data c10_building) "heating_device_cop"
        = some (c10_building.cooling_device.get_cop
            (c10_building.weather.outdoor_dry_bulb_temperature c10_building.time_step) true)
    ∧ dict_find (observations_data c10_building) "heating_device_cop"
        ≠ some (c10_building.heating_device.get_cop
            (c10_building.weather.outdoor_dry_bulb_temperature c10_building.time_step) true) := by
  refine ⟨fun b => rfl, ?_, ?_⟩
  · decide
  · decide
